import Mathlib

/-!
Shallow embedding of the streaming chat-completion client and the moderation
client of the Khan/go-openai repository, together with theorems checking the
natural-language specification against the code.

The Go source consists of two files: the chat stream wrapper (the
`ChatCompletionStream` type, its accessors and `CreateChatCompletionStream`)
and `moderation.go`.  External collaborators that the source calls but does
not define (request building, the HTTP transport, the production stream
reader) are embedded as explicit parameters, or, where a claim depends on
their behaviour, modelled from the specification and marked as such.
-/

namespace GoOpenAI

/-- Go errors relevant to the embedded code, as an enumerated type.  Distinct
constructors stand for distinct Go error values; `other` covers arbitrary
further errors produced by external collaborators. -/
inductive GoError where
  | streamClosed
  | endOfStream
  | decodeError (payload : String)
  | transportError (msg : String)
  | chatCompletionInvalidModel
  | moderationInvalidModel
  | other (msg : String)
deriving DecidableEq

/-- `http.Header` is a map from header names to lists of values; embedded as
an association list. -/
def HttpHeader := List (String × List String)

instance : DecidableEq HttpHeader := by
  unfold HttpHeader
  infer_instance

/-- Modelled from the spec: `ResetTime` (declared outside src/) is the
string-rendered reset duration carried in a rate-limit header; its Go
`String()` method returns the underlying string. -/
def ResetTime := String

instance : DecidableEq ResetTime := by
  unfold ResetTime
  infer_instance

/-- The Go method `ResetTime.String()`. -/
def ResetTime.String (t : ResetTime) : String := t

/-- Modelled from the spec: `RateLimitHeaders` (declared outside src/) is the
Rate-Limit Snapshot captured from response headers: request/token limits,
remaining counts, and two reset durations. -/
structure RateLimitHeaders where
  LimitRequests : Int
  LimitTokens : Int
  RemainingRequests : Int
  RemainingTokens : Int
  ResetRequests : ResetTime
  ResetTokens : ResetTime
deriving DecidableEq

/-- A Go `interface\x7b\x7d` value stored in the rate-limit map: the six
entries hold either an `int` or a `string`. -/
inductive GoValue where
  | int (i : Int)
  | str (s : String)
deriving DecidableEq

/-- `map[string]interface\x7b\x7d`, embedded as an association list in the
order the Go map literal writes it. -/
def GoValueMap := List (String × GoValue)

instance : DecidableEq GoValueMap := by
  unfold GoValueMap
  infer_instance

/-- Modelled from the spec: `FinishReason` (declared outside src/) is a
string-typed finish reason, empty until the final delta for a slot. -/
def FinishReason := String

/-- Modelled from the spec: an opaque structured function-call fragment
(type declared outside src/); the spec treats it as opaque payload data. -/
structure FunctionCall where
  Name : String
  Arguments : String

/-- Modelled from the spec: an opaque structured tool-call fragment
(type declared outside src/). -/
structure ToolCall where
  ID : String
  Function : FunctionCall

/-- Modelled from the spec: opaque content-filter metadata
(type declared outside src/). -/
structure ContentFilterResults where

/-- Modelled from the spec: an opaque prompt annotation entry
(type declared outside src/). -/
structure PromptAnnotation where

/-- Modelled from the spec: usage totals present only on the final record
when explicitly requested (type declared outside src/). -/
structure Usage where
  PromptTokens : Int
  CompletionTokens : Int
  TotalTokens : Int

/-- Source `ChatCompletionTokenLogprobTopLogprob` (float64 embedded as
`Float`; no claim touches these values). -/
structure ChatCompletionTokenLogprobTopLogprob where
  Token : String
  Bytes : List Int
  Logprob : Float

/-- Source `ChatCompletionTokenLogprob`. -/
structure ChatCompletionTokenLogprob where
  Token : String
  Bytes : List Int
  Logprob : Float
  TopLogprobs : List ChatCompletionTokenLogprobTopLogprob

/-- Source `ChatCompletionStreamChoiceLogprobs`. -/
structure ChatCompletionStreamChoiceLogprobs where
  Content : List ChatCompletionTokenLogprob
  Refusal : List ChatCompletionTokenLogprob

/-- Source `ChatCompletionStreamChoiceDelta`. -/
structure ChatCompletionStreamChoiceDelta where
  Content : String
  Role : String
  FunctionCall : Option FunctionCall
  ToolCalls : List ToolCall
  Refusal : String
  ReasoningContent : String

/-- Source `ChatCompletionStreamChoice`. -/
structure ChatCompletionStreamChoice where
  Index : Int
  Delta : ChatCompletionStreamChoiceDelta
  Logprobs : Option ChatCompletionStreamChoiceLogprobs
  FinishReason : FinishReason
  ContentFilterResults : ContentFilterResults

/-- Source `PromptFilterResult`. -/
structure PromptFilterResult where
  Index : Int
  ContentFilterResults : ContentFilterResults

/-- Source `ChatCompletionStreamResponse`: the Stream Record. -/
structure ChatCompletionStreamResponse where
  ID : String
  Object : String
  Created : Int
  Model : String
  Choices : List ChatCompletionStreamChoice
  SystemFingerprint : String
  PromptAnnotations : List PromptAnnotation
  PromptFilterResults : List PromptFilterResult
  Usage : Option Usage

/-- The Go zero value of `ChatCompletionStreamResponse`, returned alongside a
non-nil error. -/
def zeroResponse : ChatCompletionStreamResponse :=
  { ID := "", Object := "", Created := 0, Model := "", Choices := [],
    SystemFingerprint := "", PromptAnnotations := [], PromptFilterResults := [],
    Usage := none }

/-- Source interface `ChatStreamReader` with methods `Recv` and `Close`.
A reader is stateful in Go; here the mutable state has type `σ` and each
method maps a state to its result and the successor state.  Go dynamic
capability probing (`s.reader.(interface\x7b Header() http.Header \x7d)`) is
embedded by the optional accessor fields: the field is `some` exactly when
the dynamic type of the reader implements the corresponding method. -/
structure ChatStreamReader (σ : Type) where
  recv : σ → (ChatCompletionStreamResponse × Option GoError) × σ
  close : σ → Option GoError × σ
  headerAccessor : Option (σ → HttpHeader)
  rateLimitAccessor : Option (σ → RateLimitHeaders)

/-- Source struct `ChatCompletionStream`, wrapping an injected reader. -/
structure ChatCompletionStream (σ : Type) where
  reader : ChatStreamReader σ

/-- Source `NewChatCompletionStream`: injects a custom reader. -/
def NewChatCompletionStream {σ : Type} (reader : ChatStreamReader σ) :
    ChatCompletionStream σ :=
  { reader := reader }

/-- Source `ChatCompletionStream.Recv`: delegates to the reader. -/
def ChatCompletionStream.Recv {σ : Type} (s : ChatCompletionStream σ) (st : σ) :
    (ChatCompletionStreamResponse × Option GoError) × σ :=
  s.reader.recv st

/-- Source `ChatCompletionStream.Close`: delegates to the reader. -/
def ChatCompletionStream.Close {σ : Type} (s : ChatCompletionStream σ) (st : σ) :
    Option GoError × σ :=
  s.reader.close st

/-- Source `ChatCompletionStream.Header`: returns the reader headers when the
dynamic type exposes them, otherwise the empty `http.Header\x7b\x7d`. -/
def ChatCompletionStream.Header {σ : Type} (s : ChatCompletionStream σ) (st : σ) :
    HttpHeader :=
  match s.reader.headerAccessor with
  | some h => h st
  | none => ([] : HttpHeader)

/-- Source `ChatCompletionStream.GetRateLimitHeaders`: when the dynamic type
exposes a rate-limit accessor, builds the six-entry map from the snapshot;
otherwise returns the empty map. -/
def ChatCompletionStream.GetRateLimitHeaders {σ : Type}
    (s : ChatCompletionStream σ) (st : σ) : GoValueMap :=
  match s.reader.rateLimitAccessor with
  | some h =>
      let headers := h st
      [("x-ratelimit-limit-requests", GoValue.int headers.LimitRequests),
       ("x-ratelimit-limit-tokens", GoValue.int headers.LimitTokens),
       ("x-ratelimit-remaining-requests", GoValue.int headers.RemainingRequests),
       ("x-ratelimit-remaining-tokens", GoValue.int headers.RemainingTokens),
       ("x-ratelimit-reset-requests", GoValue.str headers.ResetRequests.String),
       ("x-ratelimit-reset-tokens", GoValue.str headers.ResetTokens.String)]
  | none => ([] : GoValueMap)

/-- The state reached after `n` successive `Recv` calls. -/
def ChatCompletionStream.recvN {σ : Type} (s : ChatCompletionStream σ) :
    Nat → σ → σ
  | 0, st => st
  | n + 1, st => s.recvN n (s.Recv st).2

/-! ### The production stream reader, modelled from the spec

The production reader that `sendRequestStream` returns (the event-frame
decoder and typed stream reader of spec sections 4.1 and 4.2) is code of this
repository that is not under src/; it is modelled here from the words of the
spec. -/

/-- Modelled from the spec: Stream State, one of Open, Done, Closed, Errored
(the Errored state remembers the error that caused it, so repeated calls
return the same error). -/
inductive StreamState where
  | Open
  | Done
  | Closed
  | Errored (e : GoError)
deriving DecidableEq

/-- Modelled from the spec: what the event-frame decoder `next()` yields —
a Raw Frame, the sentinel end-of-stream signal, or exhaustion of the
underlying transport. -/
inductive FrameResult where
  | frame (payload : String)
  | streamEnded
  | transportEnd
deriving DecidableEq

/-- Dropping the first `n` characters of a string (the character-list
rendering of `String.drop`, which the kernel can evaluate). -/
def strDrop (s : String) (n : Nat) : String := ⟨s.data.drop n⟩

/-- Trimming surrounding whitespace from a string (the character-list
rendering of `String.trim`). -/
def strTrim (s : String) : String :=
  ⟨(((s.data.dropWhile Char.isWhitespace).reverse).dropWhile
      Char.isWhitespace).reverse⟩

/-- Whether `p` begins the string `s` (the character-list rendering of
`String.startsWith`). -/
def strStartsWith (s p : String) : Bool := p.data.isPrefixOf s.data

/-- Modelled from the spec: the event-frame decoder (spec 4.1), absent from
src/.  Scans input lines: a line beginning with the data prefix yields a
candidate frame (prefix stripped, payload trimmed); a trimmed payload equal
to the sentinel `[DONE]` signals end-of-stream; any other line is discarded;
an exhausted source is a transport end.  Returns the result and the
remaining lines. -/
def decodeNext : List String → FrameResult × List String
  | [] => (FrameResult.transportEnd, [])
  | line :: rest =>
      if strStartsWith line "data:" then
        let payload := strTrim (strDrop line 5)
        if payload = "[DONE]" then (FrameResult.streamEnded, rest)
        else (FrameResult.frame payload, rest)
      else decodeNext rest

/-- Modelled from the spec: the state owned by the production typed stream
reader (spec 4.2), absent from src/ — the lifecycle state, the unread lines
of the response body, and the response headers and rate-limit snapshot
captured once when the call was established. -/
structure SpecReaderState where
  state : StreamState
  lines : List String
  headers : HttpHeader
  rateLimits : RateLimitHeaders

/-- Modelled from the spec: `receive()` of the typed stream reader (spec
4.2), absent from src/.  In a terminal state it returns the terminal error
without further I/O; otherwise it pulls the next Raw Frame, transitions to
Done on the sentinel, to Errored on transport end or decode failure, and
returns the decoded Stream Record on success.  `decode` is the external JSON
decode capability for the Stream Record schema. -/
def specRecv (decode : String → Option ChatCompletionStreamResponse)
    (st : SpecReaderState) :
    (ChatCompletionStreamResponse × Option GoError) × SpecReaderState :=
  match st.state with
  | StreamState.Closed => ((zeroResponse, some GoError.streamClosed), st)
  | StreamState.Done => ((zeroResponse, some GoError.endOfStream), st)
  | StreamState.Errored e => ((zeroResponse, some e), st)
  | StreamState.Open =>
      match decodeNext st.lines with
      | (FrameResult.transportEnd, rest) =>
          ((zeroResponse, some (GoError.transportError "unexpected EOF")),
           { st with
             state := StreamState.Errored (GoError.transportError "unexpected EOF"),
             lines := rest })
      | (FrameResult.streamEnded, rest) =>
          ((zeroResponse, some GoError.endOfStream),
           { st with state := StreamState.Done, lines := rest })
      | (FrameResult.frame p, rest) =>
          match decode p with
          | some r => ((r, none), { st with lines := rest })
          | none =>
              ((zeroResponse, some (GoError.decodeError p)),
               { st with
                 state := StreamState.Errored (GoError.decodeError p),
                 lines := rest })

/-- Modelled from the spec: `close()` of the typed stream reader (spec 4.2),
absent from src/ — releases the connection, transitions any state to Closed,
idempotent, returns no error. -/
def specClose (st : SpecReaderState) : Option GoError × SpecReaderState :=
  (none, { st with state := StreamState.Closed })

/-- The production reader packaged as a `ChatStreamReader`; it exposes both
the header accessor and the rate-limit accessor, reading the values captured
at construction. -/
def specStreamReader (decode : String → Option ChatCompletionStreamResponse) :
    ChatStreamReader SpecReaderState :=
  { recv := specRecv decode
    close := specClose
    headerAccessor := some (fun st => st.headers)
    rateLimitAccessor := some (fun st => st.rateLimits) }

/-- The stream wrapper over the production reader. -/
def specStream (decode : String → Option ChatCompletionStreamResponse) :
    ChatCompletionStream SpecReaderState :=
  NewChatCompletionStream (specStreamReader decode)

/-! ### CreateChatCompletionStream -/

/-- The chat-completions URL suffix (constant declared outside src/). -/
def chatCompletionsSuffix : String := "/chat/completions"

/-- Modelled from the spec: the assembled chat-completion request supplied by
upstream callers (type declared outside src/); only the fields the embedded
source reads are carried — the model name and the stream flag. -/
structure ChatCompletionRequest where
  Model : String
  Stream : Bool
deriving DecidableEq

/-- The external collaborators `CreateChatCompletionStream` calls, none of
which are defined under src/: the endpoint/model support check, the
reasoning validator, request construction (`newRequest`, which can fail;
the built request body is the chat request itself), and the streaming
transport (`sendRequestStream`, returning a reader and its initial state). -/
structure ChatClientEnv (σ : Type) where
  checkEndpointSupportsModel : String → String → Bool
  reasoningValidate : ChatCompletionRequest → Option GoError
  newRequestErr : ChatCompletionRequest → Option GoError
  sendRequestStream : ChatCompletionRequest →
    Except GoError (ChatStreamReader σ × σ)

/-- The result of `CreateChatCompletionStream`: the returned stream (with
the reader state) or nil, the returned error or nil, and — instrumenting
the embedding — the request body handed to the HTTP transport, `none` when
no HTTP request was issued. -/
structure ChatStreamResult (σ : Type) where
  stream : Option (ChatCompletionStream σ × σ)
  err : Option GoError
  sentRequest : Option ChatCompletionRequest

/-- Source `Client.CreateChatCompletionStream`: checks endpoint/model
support, forces `Stream := true`, runs the reasoning validator, builds the
request and sends it, wrapping the returned reader. -/
def CreateChatCompletionStream {σ : Type} (env : ChatClientEnv σ)
    (request : ChatCompletionRequest) : ChatStreamResult σ :=
  if !(env.checkEndpointSupportsModel chatCompletionsSuffix request.Model) then
    { stream := none, err := some GoError.chatCompletionInvalidModel,
      sentRequest := none }
  else
    let request := { request with Stream := true }
    match env.reasoningValidate request with
    | some e => { stream := none, err := some e, sentRequest := none }
    | none =>
        match env.newRequestErr request with
        | some e => { stream := none, err := some e, sentRequest := none }
        | none =>
            match env.sendRequestStream request with
            | Except.error e =>
                { stream := none, err := some e, sentRequest := some request }
            | Except.ok rs =>
                { stream := some (NewChatCompletionStream rs.1, rs.2),
                  err := none, sentRequest := some request }

/-! ### moderation.go -/

/-- Source constant `ModerationOmniLatest`. -/
def ModerationOmniLatest : String := "omni-moderation-latest"

/-- Source constant `ModerationOmni20240926`. -/
def ModerationOmni20240926 : String := "omni-moderation-2024-09-26"

/-- Source constant `ModerationTextStable`. -/
def ModerationTextStable : String := "text-moderation-stable"

/-- Source constant `ModerationTextLatest`. -/
def ModerationTextLatest : String := "text-moderation-latest"

/-- Source constant `ModerationText001` (deprecated; not in the valid set). -/
def ModerationText001 : String := "text-moderation-001"

/-- Source `validModerationModel`: the key set of the Go map, embedded as a
list of the four keys. -/
def validModerationModel : List String :=
  [ModerationOmniLatest, ModerationOmni20240926,
   ModerationTextStable, ModerationTextLatest]

/-- Source `ModerationItemType` (a string type). -/
def ModerationItemType := String

/-- Source `ModerationImageURL`. -/
structure ModerationImageURL where
  URL : String

/-- Source `ModerationRequestItem`; the Go field `Type` is a Lean keyword and
is embedded as `itemType`. -/
structure ModerationRequestItem where
  itemType : ModerationItemType
  ImageURL : ModerationImageURL
  Text : String

/-- The values the three converters place into the Go `any`-typed `Input`
field of `ModerationRequestV2`: a string, a string array, or an item
array. -/
inductive ModerationInput where
  | str (s : String)
  | strArray (ss : List String)
  | itemArray (items : List ModerationRequestItem)

/-- Source `ModerationRequestV2`. -/
structure ModerationRequestV2 where
  Input : ModerationInput
  Model : String

/-- Source `ModerationRequest`. -/
structure ModerationRequest where
  Input : String
  Model : String

/-- Source method `ModerationRequest.Convert`. -/
def ModerationRequest.Convert (m : ModerationRequest) : ModerationRequestV2 :=
  { Input := ModerationInput.str m.Input, Model := m.Model }

/-- Source `ModerationStrArrayRequest`. -/
structure ModerationStrArrayRequest where
  Input : List String
  Model : String

/-- Source method `ModerationStrArrayRequest.Convert`. -/
def ModerationStrArrayRequest.Convert (m : ModerationStrArrayRequest) :
    ModerationRequestV2 :=
  { Input := ModerationInput.strArray m.Input, Model := m.Model }

/-- Source `ModerationArrayRequest`. -/
structure ModerationArrayRequest where
  Input : List ModerationRequestItem
  Model : String

/-- Source method `ModerationArrayRequest.Convert`. -/
def ModerationArrayRequest.Convert (m : ModerationArrayRequest) :
    ModerationRequestV2 :=
  { Input := ModerationInput.itemArray m.Input, Model := m.Model }

/-- The external collaborators `Client.Moderations` calls, none defined under
src/: request construction (`newRequest`, taking the model used for the URL
and producing an abstract built request of type `β` or an error) and the
unary HTTP round trip (`sendRequest`, filling a response of type `ρ` and
returning the Go error slot). -/
structure ModClientEnv (β ρ : Type) where
  newRequest : String → Except GoError β
  sendRequest : β → ρ × Option GoError

/-- The result of `Moderations`: the response (or nil), the returned error
(or nil), and — instrumenting the embedding — whether an HTTP request was
issued. -/
structure ModerationsResult (ρ : Type) where
  response : Option ρ
  err : Option GoError
  httpSent : Bool

/-- Source `Client.Moderations`: converts the request, rejects a non-empty
model that is not in `validModerationModel` before any request is built or
sent, then builds and sends the request. -/
def Moderations {β ρ R : Type} (env : ModClientEnv β ρ)
    (conv : R → ModerationRequestV2) (request : R) : ModerationsResult ρ :=
  if (conv request).Model.length > 0 &&
      !(validModerationModel.contains (conv request).Model) then
    { response := none, err := some GoError.moderationInvalidModel,
      httpSent := false }
  else
    match env.newRequest (conv request).Model with
    | Except.error e => { response := none, err := some e, httpSent := false }
    | Except.ok req =>
        match env.sendRequest req with
        | (resp, none) => { response := some resp, err := none, httpSent := true }
        | (_, some e) => { response := none, err := some e, httpSent := true }

/-! ### Concrete readers used by witnesses -/

/-- A reader whose dynamic type implements neither the header accessor nor
the rate-limit accessor. -/
def noCapReader : ChatStreamReader Unit :=
  { recv := fun st => ((zeroResponse, none), st)
    close := fun st => (none, st)
    headerAccessor := none
    rateLimitAccessor := none }

/-- A concrete rate-limit snapshot. -/
def rlSnapshot : RateLimitHeaders :=
  { LimitRequests := 60, LimitTokens := 150000, RemainingRequests := 59,
    RemainingTokens := 149000, ResetRequests := "1s", ResetTokens := "6m0s" }

/-- A reader whose dynamic type implements the rate-limit accessor, returning
a fixed snapshot captured from the initial response headers. -/
def rlReader : ChatStreamReader Unit :=
  { recv := fun st => ((zeroResponse, none), st)
    close := fun st => (none, st)
    headerAccessor := none
    rateLimitAccessor := some (fun _ => rlSnapshot) }

/-- A concrete decode capability used by witnesses: decodes the payload
`rec1` to the zero record and rejects everything else. -/
def demoDecode : String → Option ChatCompletionStreamResponse :=
  fun s => if s = "rec1" then some zeroResponse else none

/-- A concrete client environment whose endpoint support check rejects the
legacy completions model `text-davinci-003` for the chat endpoint, as the
repository disabled-model table does, and whose other collaborators always
succeed. -/
def davinciEnv : ChatClientEnv Unit :=
  { checkEndpointSupportsModel := fun _ model => !(model == "text-davinci-003")
    reasoningValidate := fun _ => none
    newRequestErr := fun _ => none
    sendRequestStream := fun _ => Except.ok (noCapReader, ()) }

/-- A concrete moderation environment whose request building and HTTP round
trip always succeed. -/
def modEnvOk : ModClientEnv Unit Unit :=
  { newRequest := fun _ => Except.ok ()
    sendRequest := fun _ => ((), none) }

/-! ### Theorems -/

/-- C1: for every injected `ChatStreamReader`, when the underlying reader
does not implement the corresponding accessor, `Header()` returns the empty
`http.Header` and `GetRateLimitHeaders()` returns the empty map — total
functions, so no error and no panic. -/
theorem header_and_rate_limits_default_empty {σ : Type}
    (reader : ChatStreamReader σ) (st : σ) :
    (reader.headerAccessor = none →
      (NewChatCompletionStream reader).Header st = ([] : HttpHeader)) ∧
    (reader.rateLimitAccessor = none →
      (NewChatCompletionStream reader).GetRateLimitHeaders st =
        ([] : GoValueMap)) := by
  constructor
  · intro h
    simp [NewChatCompletionStream, ChatCompletionStream.Header, h]
  · intro h
    simp [NewChatCompletionStream, ChatCompletionStream.GetRateLimitHeaders, h]

/-- Witness for C1 at a concrete capability-free reader. -/
theorem header_and_rate_limits_default_empty_witness :
    (NewChatCompletionStream noCapReader).Header () = ([] : HttpHeader) ∧
    (NewChatCompletionStream noCapReader).GetRateLimitHeaders () =
      ([] : GoValueMap) :=
  ⟨(header_and_rate_limits_default_empty noCapReader ()).1 rfl,
   (header_and_rate_limits_default_empty noCapReader ()).2 rfl⟩

/-- C2: whenever the underlying reader exposes a rate-limit accessor,
`GetRateLimitHeaders()` returns the map whose entries are exactly the six
`x-ratelimit-*` keys, holding the snapshot limits and remaining counts and
the two reset durations rendered as strings. -/
theorem rate_limit_map_exact_keys {σ : Type} (s : ChatCompletionStream σ)
    (st : σ) (f : σ → RateLimitHeaders)
    (h : s.reader.rateLimitAccessor = some f) :
    s.GetRateLimitHeaders st =
      [("x-ratelimit-limit-requests", GoValue.int (f st).LimitRequests),
       ("x-ratelimit-limit-tokens", GoValue.int (f st).LimitTokens),
       ("x-ratelimit-remaining-requests", GoValue.int (f st).RemainingRequests),
       ("x-ratelimit-remaining-tokens", GoValue.int (f st).RemainingTokens),
       ("x-ratelimit-reset-requests", GoValue.str (f st).ResetRequests.String),
       ("x-ratelimit-reset-tokens", GoValue.str (f st).ResetTokens.String)] ∧
    (s.GetRateLimitHeaders st).map Prod.fst =
      ["x-ratelimit-limit-requests", "x-ratelimit-limit-tokens",
       "x-ratelimit-remaining-requests", "x-ratelimit-remaining-tokens",
       "x-ratelimit-reset-requests", "x-ratelimit-reset-tokens"] := by
  unfold ChatCompletionStream.GetRateLimitHeaders
  rw [h]
  exact ⟨rfl, rfl⟩

/-- Witness for C2 at a concrete reader exposing a rate-limit accessor. -/
theorem rate_limit_map_exact_keys_witness :
    (NewChatCompletionStream rlReader).GetRateLimitHeaders () =
      [("x-ratelimit-limit-requests", GoValue.int 60),
       ("x-ratelimit-limit-tokens", GoValue.int 150000),
       ("x-ratelimit-remaining-requests", GoValue.int 59),
       ("x-ratelimit-remaining-tokens", GoValue.int 149000),
       ("x-ratelimit-reset-requests", GoValue.str "1s"),
       ("x-ratelimit-reset-tokens", GoValue.str "6m0s")] ∧
    ((NewChatCompletionStream rlReader).GetRateLimitHeaders ()).map Prod.fst =
      ["x-ratelimit-limit-requests", "x-ratelimit-limit-tokens",
       "x-ratelimit-remaining-requests", "x-ratelimit-remaining-tokens",
       "x-ratelimit-reset-requests", "x-ratelimit-reset-tokens"] :=
  rate_limit_map_exact_keys (NewChatCompletionStream rlReader) ()
    (fun _ => rlSnapshot) rfl

/-- C3: `ChatCompletionStream.Recv` returns exactly the pair the underlying
reader produces — no retry, no suppression, no transformation of the error,
no modification of a decoded record. -/
theorem recv_passthrough {σ : Type} (s : ChatCompletionStream σ) (st st' : σ)
    (resp : ChatCompletionStreamResponse) (e : Option GoError)
    (h : s.reader.recv st = ((resp, e), st')) :
    s.Recv st = ((resp, e), st') := by
  simpa [ChatCompletionStream.Recv] using h

/-- Witness for C3 at a concrete reader. -/
theorem recv_passthrough_witness :
    (NewChatCompletionStream noCapReader).Recv () = ((zeroResponse, none), ()) :=
  recv_passthrough (NewChatCompletionStream noCapReader) () () zeroResponse
    none rfl

/-- C4: when the rate-limit accessor of the underlying reader is a pure
function of the initially captured response headers (so its value does not
depend on the reader state), `GetRateLimitHeaders()` returns an equal map
after any numbers of `Recv()` calls. -/
theorem rate_limits_deterministic {σ : Type} (s : ChatCompletionStream σ)
    (f : σ → RateLimitHeaders) (h : s.reader.rateLimitAccessor = some f)
    (hf : ∀ a b : σ, f a = f b) (n m : Nat) (st : σ) :
    s.GetRateLimitHeaders (s.recvN n st) =
      s.GetRateLimitHeaders (s.recvN m st) := by
  unfold ChatCompletionStream.GetRateLimitHeaders
  rw [h]
  simp only [hf (s.recvN n st) (s.recvN m st)]

/-- Witness for C4: two and zero `Recv()` calls on a concrete reader with a
state-independent accessor give equal maps. -/
theorem rate_limits_deterministic_witness :
    (NewChatCompletionStream rlReader).GetRateLimitHeaders
        ((NewChatCompletionStream rlReader).recvN 2 ()) =
      (NewChatCompletionStream rlReader).GetRateLimitHeaders
        ((NewChatCompletionStream rlReader).recvN 0 ()) :=
  rate_limits_deterministic (NewChatCompletionStream rlReader)
    (fun _ => rlSnapshot) rfl (fun _ _ => rfl) 2 0 ()

/-- C10: each of the three converters is field-preserving into
`ModerationRequestV2`: the result `Input` is the original input (under the
evident injection into the `any`-typed field) and the result `Model` is the
original model; `Convert` is pure, so it has no other effect. -/
theorem convert_preserves_fields :
    (∀ m : ModerationRequest,
      m.Convert.Input = ModerationInput.str m.Input ∧
      m.Convert.Model = m.Model) ∧
    (∀ m : ModerationStrArrayRequest,
      m.Convert.Input = ModerationInput.strArray m.Input ∧
      m.Convert.Model = m.Model) ∧
    (∀ m : ModerationArrayRequest,
      m.Convert.Input = ModerationInput.itemArray m.Input ∧
      m.Convert.Model = m.Model) :=
  ⟨fun _ => ⟨rfl, rfl⟩, fun _ => ⟨rfl, rfl⟩, fun _ => ⟨rfl, rfl⟩⟩

/-- C5: on the production reader, `Close()` reports no error, is idempotent
(closing again returns the same state and no error) from any state, and
every `Recv()` after `Close()` returns the stream-closed error with the zero
record — never previously buffered data — and performs no further I/O (the
state, in particular the unread lines, is unchanged). -/
theorem close_idempotent_recv_after_close_errors
    (decode : String → Option ChatCompletionStreamResponse)
    (st : SpecReaderState) :
    ((specStream decode).Close st).1 = none ∧
    (specStream decode).Close (((specStream decode).Close st).2) =
      (none, ((specStream decode).Close st).2) ∧
    ((specStream decode).Recv (((specStream decode).Close st).2)).1 =
      (zeroResponse, some GoError.streamClosed) ∧
    ((specStream decode).Recv (((specStream decode).Close st).2)).2 =
      ((specStream decode).Close st).2 ∧
    (∀ n, ((specStream decode).Recv ((specStream decode).recvN n
        (((specStream decode).Close st).2))).1 =
      (zeroResponse, some GoError.streamClosed)) := by
  have hfix : ∀ m, (specStream decode).recvN m
      (((specStream decode).Close st).2) =
      ((specStream decode).Close st).2 := by
    intro m
    induction m with
    | zero => rfl
    | succ k ih =>
        rw [ChatCompletionStream.recvN]
        exact ih
  refine ⟨rfl, rfl, rfl, rfl, fun n => ?_⟩
  rw [hfix n]
  rfl

/-- Helper for C6: reading a block of well-formed non-sentinel data frames
consumes exactly that block, leaving the reader Open before the rest of the
input. -/
theorem recvN_consumes_frames
    (decode : String → Option ChatCompletionStreamResponse)
    (pairs : List (String × ChatCompletionStreamResponse))
    (tl : List String) (hdr : HttpHeader) (rl : RateLimitHeaders)
    (hframes : ∀ p ∈ pairs, strStartsWith p.1 "data:" = true ∧
      strTrim (strDrop p.1 5) ≠ "[DONE]" ∧
      decode (strTrim (strDrop p.1 5)) = some p.2) :
    (specStream decode).recvN pairs.length
        ⟨StreamState.Open, pairs.map Prod.fst ++ tl, hdr, rl⟩ =
      ⟨StreamState.Open, tl, hdr, rl⟩ := by
  induction pairs with
  | nil => rfl
  | cons p ps ih =>
      obtain ⟨h1, h2, h3⟩ := hframes p (List.mem_cons_self p ps)
      have step : (specStream decode).Recv
          ⟨StreamState.Open, (p :: ps).map Prod.fst ++ tl, hdr, rl⟩ =
          ((p.2, none), ⟨StreamState.Open, ps.map Prod.fst ++ tl, hdr, rl⟩) := by
        simp [specStream, NewChatCompletionStream, specStreamReader,
          ChatCompletionStream.Recv, specRecv, decodeNext, h1, h2, h3]
      show (specStream decode).recvN (ps.length + 1) _ = _
      rw [ChatCompletionStream.recvN, step]
      exact ih (fun q hq => hframes q (List.mem_cons_of_mem p hq))

/-- C6: for every stream of frames, after any number of valid data-frame
records, a frame whose trimmed payload is the sentinel `[DONE]` causes the
next `Recv()` to yield the end-of-stream signal (transitioning to Done),
with the zero record in the record slot — no Stream Record is produced for
the sentinel frame itself. -/
theorem sentinel_yields_end_of_stream
    (decode : String → Option ChatCompletionStreamResponse)
    (pairs : List (String × ChatCompletionStreamResponse))
    (sline : String) (rest : List String)
    (hdr : HttpHeader) (rl : RateLimitHeaders)
    (hframes : ∀ p ∈ pairs, strStartsWith p.1 "data:" = true ∧
      strTrim (strDrop p.1 5) ≠ "[DONE]" ∧
      decode (strTrim (strDrop p.1 5)) = some p.2)
    (hs1 : strStartsWith sline "data:" = true)
    (hs2 : strTrim (strDrop sline 5) = "[DONE]") :
    ((specStream decode).Recv ((specStream decode).recvN pairs.length
        ⟨StreamState.Open, pairs.map Prod.fst ++ sline :: rest, hdr, rl⟩)).1 =
      (zeroResponse, some GoError.endOfStream) ∧
    ((specStream decode).Recv ((specStream decode).recvN pairs.length
        ⟨StreamState.Open, pairs.map Prod.fst ++ sline :: rest, hdr, rl⟩)).2.state =
      StreamState.Done := by
  rw [recvN_consumes_frames decode pairs (sline :: rest) hdr rl hframes]
  constructor <;>
    simp [specStream, NewChatCompletionStream, specStreamReader,
      ChatCompletionStream.Recv, specRecv, decodeNext, hs1, hs2]

/-- Witness for C6: one valid record followed by the sentinel frame. -/
theorem sentinel_yields_end_of_stream_witness :
    ((specStream demoDecode).Recv ((specStream demoDecode).recvN 1
        ⟨StreamState.Open, ["data: rec1", "data: [DONE]"], [], rlSnapshot⟩)).1 =
      (zeroResponse, some GoError.endOfStream) ∧
    ((specStream demoDecode).Recv ((specStream demoDecode).recvN 1
        ⟨StreamState.Open, ["data: rec1", "data: [DONE]"], [],
          rlSnapshot⟩)).2.state = StreamState.Done :=
  sentinel_yields_end_of_stream demoDecode [("data: rec1", zeroResponse)]
    "data: [DONE]" [] [] rlSnapshot
    (by
      intro p hp
      simp only [List.mem_singleton] at hp
      subst hp
      exact ⟨by decide, by decide, rfl⟩)
    (by decide) (by decide)

/-- Counterexample for C7: with the endpoint support check that disables the
legacy completions model for the chat endpoint (as the repository
disabled-model table does), `CreateChatCompletionStream` fails with
`ErrChatCompletionInvalidModel` for model `text-davinci-003`, sending no
HTTP request, while the identical request with model `gpt-4` succeeds —
so the failure is due solely to the model name. -/
theorem create_stream_rejects_model_counterexample :
    (CreateChatCompletionStream davinciEnv
        { Model := "text-davinci-003", Stream := false }).err =
      some GoError.chatCompletionInvalidModel ∧
    (CreateChatCompletionStream davinciEnv
        { Model := "text-davinci-003", Stream := false }).sentRequest = none ∧
    (CreateChatCompletionStream davinciEnv
        { Model := "gpt-4", Stream := false }).err = none :=
  ⟨rfl, rfl, rfl⟩

/-- C7 amended: `CreateChatCompletionStream` does validate the model name —
it returns a nil stream and `ErrChatCompletionInvalidModel`, without sending
any HTTP request, whenever `checkEndpointSupportsModel` rejects the model
for the chat-completions endpoint.  (Only the stream-reader operations
`Recv`, `Close`, `Header` and `GetRateLimitHeaders` are model-agnostic.) -/
theorem create_stream_model_validation {σ : Type} (env : ChatClientEnv σ)
    (request : ChatCompletionRequest)
    (h : env.checkEndpointSupportsModel chatCompletionsSuffix request.Model =
      false) :
    CreateChatCompletionStream env request =
      { stream := none, err := some GoError.chatCompletionInvalidModel,
        sentRequest := none } := by
  simp [CreateChatCompletionStream, h]

/-- Witness for the amended C7 at the concrete environment. -/
theorem create_stream_model_validation_witness :
    CreateChatCompletionStream davinciEnv
        { Model := "text-davinci-003", Stream := false } =
      { stream := none, err := some GoError.chatCompletionInvalidModel,
        sentRequest := none } :=
  create_stream_model_validation davinciEnv
    { Model := "text-davinci-003", Stream := false } (by decide)

/-- C8: `CreateChatCompletionStream` sets `Stream := true` on the request
before issuing the HTTP call, overriding any caller-supplied value (every
request body that reaches the transport has `Stream = true`), and on an
unsupported model, a reasoning-validator rejection, or a request build
error it returns a nil stream together with the error, without sending any
HTTP request. -/
theorem create_stream_forces_stream_flag {σ : Type} (env : ChatClientEnv σ)
    (request : ChatCompletionRequest) :
    (∀ r, (CreateChatCompletionStream env request).sentRequest = some r →
      r.Stream = true) ∧
    (env.checkEndpointSupportsModel chatCompletionsSuffix request.Model =
        false →
      CreateChatCompletionStream env request =
        { stream := none, err := some GoError.chatCompletionInvalidModel,
          sentRequest := none }) ∧
    (∀ e, env.reasoningValidate { request with Stream := true } = some e →
      env.checkEndpointSupportsModel chatCompletionsSuffix request.Model =
        true →
      CreateChatCompletionStream env request =
        { stream := none, err := some e, sentRequest := none }) ∧
    (∀ e, env.newRequestErr { request with Stream := true } = some e →
      env.reasoningValidate { request with Stream := true } = none →
      env.checkEndpointSupportsModel chatCompletionsSuffix request.Model =
        true →
      CreateChatCompletionStream env request =
        { stream := none, err := some e, sentRequest := none }) := by
  cases hc : env.checkEndpointSupportsModel chatCompletionsSuffix request.Model with
  | false =>
      have hres : CreateChatCompletionStream env request =
          { stream := none, err := some GoError.chatCompletionInvalidModel,
            sentRequest := none } := by
        simp [CreateChatCompletionStream, hc]
      refine ⟨fun r hr => ?_, fun _ => hres, fun e _ h1 => ?_, fun e _ _ h1 => ?_⟩
      · rw [hres] at hr
        cases hr
      · exact Bool.noConfusion h1
      · exact Bool.noConfusion h1
  | true =>
      cases hv : env.reasoningValidate { request with Stream := true } with
      | some e0 =>
          have hres : CreateChatCompletionStream env request =
              { stream := none, err := some e0, sentRequest := none } := by
            simp [CreateChatCompletionStream, hc, hv]
          refine ⟨fun r hr => ?_, fun hf => ?_, fun e h2 _ => ?_, fun e _ h2 _ => ?_⟩
          · rw [hres] at hr
            cases hr
          · exact Bool.noConfusion hf
          · cases h2
            exact hres
          · exact Option.noConfusion h2
      | none =>
          cases hb : env.newRequestErr { request with Stream := true } with
          | some e0 =>
              have hres : CreateChatCompletionStream env request =
                  { stream := none, err := some e0, sentRequest := none } := by
                simp [CreateChatCompletionStream, hc, hv, hb]
              refine ⟨fun r hr => ?_, fun hf => ?_, fun e h2 _ => ?_,
                fun e h3 _ _ => ?_⟩
              · rw [hres] at hr
                cases hr
              · exact Bool.noConfusion hf
              · exact Option.noConfusion h2
              · cases h3
                exact hres
          | none =>
              cases hsend : env.sendRequestStream { request with Stream := true } with
              | error e0 =>
                  have hres : CreateChatCompletionStream env request =
                      { stream := none, err := some e0,
                        sentRequest := some { request with Stream := true } } := by
                    simp [CreateChatCompletionStream, hc, hv, hb, hsend]
                  refine ⟨fun r hr => ?_, fun hf => ?_, fun e h2 _ => ?_,
                    fun e h3 _ _ => ?_⟩
                  · rw [hres] at hr
                    cases hr
                    rfl
                  · exact Bool.noConfusion hf
                  · exact Option.noConfusion h2
                  · exact Option.noConfusion h3
              | ok rs =>
                  have hres : CreateChatCompletionStream env request =
                      { stream := some (NewChatCompletionStream rs.1, rs.2),
                        err := none,
                        sentRequest := some { request with Stream := true } } := by
                    simp [CreateChatCompletionStream, hc, hv, hb, hsend]
                  refine ⟨fun r hr => ?_, fun hf => ?_, fun e h2 _ => ?_,
                    fun e h3 _ _ => ?_⟩
                  · rw [hres] at hr
                    cases hr
                    rfl
                  · exact Bool.noConfusion hf
                  · exact Option.noConfusion h2
                  · exact Option.noConfusion h3

/-- Witness for C8: the HTTP body sent for a request submitted with
`Stream = false` carries `Stream = true`, and the rejected model case
returns nil stream, the invalid-model error, and no sent request. -/
theorem create_stream_forces_stream_flag_witness :
    ({ Model := "gpt-4", Stream := true } : ChatCompletionRequest).Stream =
      true ∧
    CreateChatCompletionStream davinciEnv
        { Model := "text-davinci-003", Stream := false } =
      { stream := none, err := some GoError.chatCompletionInvalidModel,
        sentRequest := none } :=
  ⟨(create_stream_forces_stream_flag davinciEnv
      { Model := "gpt-4", Stream := false }).1
      { Model := "gpt-4", Stream := true } rfl,
   (create_stream_forces_stream_flag davinciEnv
      { Model := "text-davinci-003", Stream := false }).2.1 (by decide)⟩

/-- Helper: a string has positive length exactly when it is non-empty. -/
theorem string_length_pos_iff_ne_empty (s : String) : 0 < s.length ↔ s ≠ "" := by
  cases s with
  | mk data =>
      simp only [String.length]
      constructor
      · intro h he
        rw [show ("" : String) = ⟨[]⟩ from rfl] at he
        cases he
        simp at h
      · intro h
        cases data with
        | nil => exact absurd (show (⟨[]⟩ : String) = "" from rfl) h
        | cons c cs => simp

/-- C9: provided request construction never produces
`ErrModerationInvalidModel` (in the source it cannot), `Moderations` returns
`ErrModerationInvalidModel` without issuing any HTTP request exactly when the
converted request has a non-empty `Model` outside the four valid moderation
models; in particular an empty model always passes the validation step. -/
theorem moderations_model_validation {β ρ R : Type} (env : ModClientEnv β ρ)
    (conv : R → ModerationRequestV2) (request : R)
    (hbuild : ∀ m e, env.newRequest m = Except.error e →
      e ≠ GoError.moderationInvalidModel) :
    ((Moderations env conv request).err = some GoError.moderationInvalidModel ∧
      (Moderations env conv request).httpSent = false) ↔
    ((conv request).Model ≠ "" ∧
      validModerationModel.contains (conv request).Model = false) := by
  unfold Moderations
  split
  case isTrue h =>
      simp only [Bool.and_eq_true, decide_eq_true_eq, Bool.not_eq_true'] at h
      constructor
      · intro _
        exact ⟨(string_length_pos_iff_ne_empty _).mp h.1, h.2⟩
      · intro _
        exact ⟨rfl, rfl⟩
  case isFalse h =>
      have hrhs : ¬((conv request).Model ≠ "" ∧
          validModerationModel.contains (conv request).Model = false) := by
        rintro ⟨r1, r2⟩
        apply h
        have hlen : 0 < (conv request).Model.length :=
          (string_length_pos_iff_ne_empty _).mpr r1
        rw [r2]
        simp [hlen]
      cases hb : env.newRequest (conv request).Model with
      | error e =>
          exact iff_of_false
            (fun hl => (hbuild _ e hb) (Option.some.inj hl.1)) hrhs
      | ok b =>
          dsimp only
          cases hsr : env.sendRequest b with
          | mk resp oe =>
              cases oe with
              | none =>
                  exact iff_of_false (fun hl => Option.noConfusion hl.1) hrhs
              | some e =>
                  exact iff_of_false (fun hl => Bool.noConfusion hl.2) hrhs

/-- Witness for C9: the chat model `gpt-4` is rejected by the moderation
validation step with no HTTP request issued. -/
theorem moderations_model_validation_witness :
    (Moderations modEnvOk ModerationRequest.Convert
        { Input := "hello", Model := "gpt-4" }).err =
      some GoError.moderationInvalidModel ∧
    (Moderations modEnvOk ModerationRequest.Convert
        { Input := "hello", Model := "gpt-4" }).httpSent = false :=
  (moderations_model_validation modEnvOk ModerationRequest.Convert
      { Input := "hello", Model := "gpt-4" }
      (fun _ e h => nomatch h)).mpr
    ⟨by decide, by decide⟩

end GoOpenAI
